import Mathlib

/-!
# Verification of the esm module compile/execute driver

Shallow embedding of `src/unnamed/part_000` (the `compile` / `tryCompile` /
`tryRun` / `isDescendant` driver of the esm engine), with theorems settling
the frozen claims about it.

External collaborators (Caching Compiler, Runtime Bridge, host `_compile`,
stack-frame capture) are modelled as oracle inputs; everything the driver
itself does is translated line by line from the source.
-/

namespace Esm

/-- Source types from `constant/compiler.js` (`SOURCE_TYPE_*`). -/
inductive SourceTypeE
  | script
  | module
  | unambiguous
  deriving Repr, DecidableEq

/-- Entry types from `constant/entry.js` (`TYPE_CJS` = Dynamic,
`TYPE_ESM` = Declarative). -/
inductive EntryType
  | cjs
  | esm
  deriving Repr, DecidableEq

/-- `Entry.state` values from `constant/entry.js` (`STATE_*`). -/
inductive EntryState
  | initial
  | parsingStarted
  | parsingCompleted
  | executionStarted
  | executionCompleted
  deriving Repr, DecidableEq

/-- Modelled from the spec: `TRANSFORMS_EVAL` is the bitmask bit of the
"wrap in eval" rewrite from `constant/compiler.js` (file not under `src/`).
Only its being a fixed nonzero value is used by the driver
(`transforms === TRANSFORMS_EVAL` and `transforms !== 0` tests). -/
def TRANSFORMS_EVAL : Nat := 4

/-- `CompileData` fields read or written by the driver
(`src/unnamed/part_000`): `code`, `codeWithTDZ`, `sourceType`,
`transforms`, `circular` (tri-state `-1`/`0`/`1`),
`firstAwaitOutsideFunction` (`line`/`column`). -/
structure CompileData where
  code : Option String
  codeWithTDZ : Option String
  sourceType : SourceTypeE
  transforms : Nat
  circular : Int
  firstAwaitOutsideFunction : Option (Nat × Nat)
  deriving Repr, DecidableEq

/-- An error thrown by an external collaborator (compiler or module body),
as far as the driver can observe it: `name`, `message`, and whether
`isStackTraceMaskable` holds for it. -/
structure JsError where
  name : String
  message : String
  maskable : Bool
  deriving Repr, DecidableEq

/-- State touched by the caching fragment of `compile`
(`src/unnamed/part_000` lines 87-136) and by `tryCompile`
(lines 237-261): `entry.compileData`, the package compile cache at
`entry.cacheName`, `entry.type`, `entry.state`. -/
structure CacheSt where
  entryCompileData : Option CompileData
  pkgCache : Option CompileData
  entryType : EntryType
  entryState : EntryState
  deriving Repr, DecidableEq

/-- The fresh-compile path (lines 101-129 plus `tryCompile`): one
compiler invocation; on success store the artifact in the entry and the
package cache, upgrade `entry.type` for a Declarative source, apply the
default-package eval-only revert, and fill a null `code`; on failure set
the terminal state (line 246). -/
def freshCompile (isDefaultPkg : Bool) (content : String)
    (compilerResult : Except JsError CompileData) (st : CacheSt) :
    CacheSt × Except JsError CompileData × Nat :=
  match compilerResult with
  | Except.error e =>
      ({ st with entryState := EntryState.executionCompleted },
       Except.error e, 1)
  | Except.ok cd0 =>
      let ty :=
        if cd0.sourceType = SourceTypeE.module then EntryType.esm
        else st.entryType
      let cd1 :=
        if isDefaultPkg ∧ ty = EntryType.cjs ∧
            cd0.transforms = TRANSFORMS_EVAL then
          { cd0 with code := some content, transforms := 0 }
        else cd0
      let cd2 :=
        if cd1.code = none then { cd1 with code := some content } else cd1
      ({ entryCompileData := some cd2, pkgCache := some cd2,
         entryType := ty, entryState := st.entryState },
       Except.ok cd2, 1)

/-- Caching fragment of `compile` (`src/unnamed/part_000` lines 87-136),
with `tryCompile`'s error bookkeeping (line 246) folded in.

* `compilerResult` is the oracle for `CachingCompiler.compile`
  (`tryCompile` line 241): either the fresh `CompileData` or the thrown
  error.
* The returned `Nat` counts invocations of `CachingCompiler.compile`.
* `CachingCompiler.from(entry)` (line 90) resolves the package cache at
  the entry's cache name. -/
def compileCaching (isDefaultPkg : Bool) (content : String)
    (compilerResult : Except JsError CompileData) (st : CacheSt) :
    CacheSt × Except JsError CompileData × Nat :=
  match st.entryCompileData with
  | some cd =>
      -- lines 87-88 take the entry's own compileData; lines 133-136 fill
      -- a null code with the raw content.
      let cd1 := if cd.code = none then { cd with code := some content } else cd
      ({ st with entryCompileData := some cd1 }, Except.ok cd1, 0)
  | none =>
      match st.pkgCache with
      | some cached =>
          if cached.transforms = 0 then
            -- line 90: `CachingCompiler.from(entry)` found a fresh cache
            -- record; the guard at lines 92-93 fails, so no compile call.
            -- `entry.compileData` is left untouched (only lines 133-136 run).
            let cd1 :=
              if cached.code = none then { cached with code := some content }
              else cached
            ({ st with pkgCache := some cd1 }, Except.ok cd1, 0)
          else
            -- stale cache (non-zero transforms): recompile, lines 101-129.
            freshCompile isDefaultPkg content compilerResult st
      | none => freshCompile isDefaultPkg content compilerResult st

/-- The condition under which the caching fragment performs no compiler
call: `entry.compileData` already present, or the package cache holds a
record with zero pending transforms (lines 89-93). -/
def cachedReady (st : CacheSt) : Prop :=
  st.entryCompileData ≠ none ∨
    ∃ cd, st.pkgCache = some cd ∧ cd.transforms = 0

instance (st : CacheSt) : Decidable (cachedReady st) := by
  unfold cachedReady
  exact inferInstance

/-! ## Execution driver (`tryRun`, lines 263-432) -/

/-- The host module's `loaded` property, as the driver shapes it:
a plain data property, or the one-shot observable accessor installed at
lines 381-392, or the data property the accessor's setter re-installs via
`setProperty` on the first truthy write (line 387). Values are modelled
as `Nat` with JavaScript truthiness `v ≠ 0`. -/
inductive LoadedProp
  | plain (v : Nat)
  | observable
  | forwarded (v : Nat)
  deriving Repr, DecidableEq

/-- Observable events of the driver, in program order. -/
inductive Ev
  | stateSet (s : EntryState)
  | bodyExec
  | bindingsUpdate
  | loadedHook
  | markDirty
  | circCheck
  | exportsReplaced
  | fallbackCalled
  | finalizeNamespace
  deriving Repr, DecidableEq

/-- Errors as `tryRun` classifies them: an error from a collaborator
(`JsError`), or the synthesized "illegal await outside an async function"
syntax error of lines 355-358 carrying `line`, `column` and the
`inModule` flag. -/
inductive RunError
  | js (e : JsError)
  | illegalAwait (line column : Nat) (inModule : Bool)
  deriving Repr, DecidableEq

/-- `error.name`: the synthesized error is an `errors.SyntaxError`. -/
def RunError.name : RunError → String
  | RunError.js e => e.name
  | RunError.illegalAwait _ _ _ => "SyntaxError"

/-- Modelled from the spec: the `ILLEGAL_AWAIT_IN_NON_ASYNC_FUNCTION`
message from `constant/message.js` (file not under `src/`); its exact
text is irrelevant to every claim. -/
def ILLEGAL_AWAIT_IN_NON_ASYNC_FUNCTION : String :=
  "await is only valid in async function"

/-- `error.message`. -/
def RunError.message : RunError → String
  | RunError.js e => e.message
  | RunError.illegalAwait _ _ _ => ILLEGAL_AWAIT_IN_NON_ASYNC_FUNCTION

/-- `isStackTraceMaskable(error)`: driver-synthesized parse errors are
maskable; collaborator errors carry their own answer. -/
def RunError.maskable : RunError → Bool
  | RunError.js e => e.maskable
  | RunError.illegalAwait _ _ _ => true

/-- Per-module state of an `Entry` as the driver reads and writes it.
`runtimePresent`/`runResult` model `entry.runtime` and
`runtime._runResult`: `runResult = some k` is the execution continuation
after `k` observation steps (`none` = not yet created). `optAwait`,
`extnameMjs` feed `useAsync` (lines 434-438). -/
structure EntryM where
  state : EntryState
  type : EntryType
  running : Bool
  runtimePresent : Bool
  runResult : Option Nat
  gettersEmpty : Bool
  compileData : CompileData
  circularFlag : Bool
  cacheDirty : Bool
  loadedProp : LoadedProp
  optAwait : Bool
  extnameMjs : Bool
  namespaceDeferred : Bool
  deriving Repr, DecidableEq

/-- Outcomes of the external calls one `tryRun` invocation can make.
`hostOutcome` is the host `_compile` of the first pass (line 309);
`observeOutcome` the `_runResult.next()` of line 337 on a Declarative
continuation; `finalOutcome` the `_runResult.next()` of line 366 (for a
Dynamic entry this is the step that actually runs the module body). -/
structure RunEnv where
  supportAwait : Bool
  debug : Bool
  hostOutcome : Option JsError
  observeOutcome : Option JsError
  finalOutcome : Option JsError
  deriving Repr, DecidableEq

/-- `useAsync(entry)`, lines 434-438. -/
def useAsync (supportAwait : Bool) (e : EntryM) : Bool :=
  e.optAwait && supportAwait && !e.extnameMjs

/-- Lines 277-285: obtain or reuse the runtime object. Both the Runtime
Bridge object and the plain object start with `_runResult` undefined. -/
def runtimeSetup (e : EntryM) : EntryM :=
  if e.runtimePresent then e
  else { e with runtimePresent := true, runResult := none }

/-- Intermediate run state: pending error, entry, trace. -/
abbrev RS := Option RunError × EntryM × List Ev

/-- First pass (lines 297-324): render source and invoke the host
compile/execute primitive. For a Declarative entry the module source runs
here (and on success the Runtime Bridge has stored the continuation);
for a Dynamic entry only the one-step continuation wrapping `_compile`
is created (lines 313-317), the body does not run yet. `running` is set
for the duration and cleared at line 323 on both outcomes. -/
def firstPassStep (env : RunEnv) (isESM firstPass : Bool) (s : RS) : RS :=
  match s with
  | (some e, en, tr) => (some e, en, tr)
  | (none, en, tr) =>
      if firstPass then
        if isESM then
          match env.hostOutcome with
          | none =>
              (none, { en with runResult := some 0, running := false },
               tr ++ [Ev.bodyExec])
          | some e =>
              (some (RunError.js e), { en with running := false },
               tr ++ [Ev.bodyExec])
        else
          (none, { en with runResult := some 0, running := false }, tr)
      else (none, en, tr)

/-- Observation step (lines 329-344): on first pass outside a parse,
advance the continuation once and discard the value (surviving debugger
interception of `_compile`). A Dynamic continuation merely moves past its
`yield` and cannot throw; a Declarative bridge continuation may. -/
def observeStep (env : RunEnv) (parsing isESM firstPass : Bool) (s : RS) :
    RS :=
  match s with
  | (some e, en, tr) => (some e, en, tr)
  | (none, en, tr) =>
      if !parsing && firstPass then
        if isESM then
          match env.observeOutcome with
          | none =>
              (none,
               { en with runResult := en.runResult.map (· + 1),
                         running := false }, tr)
          | some e => (some (RunError.js e), { en with running := false }, tr)
        else
          (none, { en with runResult := some 1, running := false }, tr)
      else (none, en, tr)

/-- The boolean guard of lines 348-353 (minus the
`firstAwaitOutsideFunction` null test): entry not running, `async`
eligible, Declarative entry, getters NOT empty
(`! isObjectEmpty(entry.getters)`). -/
def validateCond (running async isESM gettersEmpty : Bool) : Bool :=
  !running && async && isESM && !gettersEmpty

/-- Top-level-await validation (lines 346-359): with no error so far,
under `validateCond`, for a `CompileData` that recorded an await outside
any function, synthesize the syntax error with the recorded line/column
and `inModule` set. -/
def validateStep (async isESM : Bool) (s : RS) : RS :=
  match s with
  | (some e, en, tr) => (some e, en, tr)
  | (none, en, tr) =>
      if validateCond en.running async isESM en.gettersEmpty then
        match en.compileData.firstAwaitOutsideFunction with
        | some lc => (some (RunError.illegalAwait lc.1 lc.2 true), en, tr)
        | none => (none, en, tr)
      else (none, en, tr)

/-- Final read (lines 361-373): advance the continuation and take its
value. For a Dynamic entry the step from one observation to two is the
one that applies the real `_compile` — the module body executes there and
may throw; a finished continuation just yields `undefined`. -/
def finalReadStep (env : RunEnv) (isESM : Bool) (s : RS) : RS :=
  match s with
  | (some e, en, tr) => (some e, en, tr)
  | (none, en, tr) =>
      if en.running then (none, en, tr)
      else if isESM then
        match env.finalOutcome with
        | none => (none, { en with running := false }, tr)
        | some e => (some (RunError.js e), { en with running := false }, tr)
      else
        match en.runResult with
        | some 0 => (none, { en with runResult := some 1, running := false }, tr)
        | some 1 =>
            match env.finalOutcome with
            | none =>
                (none, { en with runResult := some 2, running := false },
                 tr ++ [Ev.bodyExec])
            | some e =>
                (some (RunError.js e),
                 { en with runResult := some 2, running := false },
                 tr ++ [Ev.bodyExec])
        | _ => (none, { en with running := false }, tr)

/-- One-shot observable `loaded` semantics (lines 381-392) and plain
data-property writes. The accessor ignores falsy writes; on the first
truthy write it stores the value (`setProperty`), updates bindings and
fires the loaded hook, in that order (lines 387-389). -/
def loadedWrite (p : LoadedProp) (v : Nat) : LoadedProp × List Ev :=
  match p with
  | LoadedProp.observable =>
      if v ≠ 0 then
        (LoadedProp.forwarded v, [Ev.bindingsUpdate, Ev.loadedHook])
      else (LoadedProp.observable, [])
  | LoadedProp.plain _ => (LoadedProp.plain v, [])
  | LoadedProp.forwarded _ => (LoadedProp.forwarded v, [])

/-- Reading the `loaded` property: the accessor's getter returns `false`
(line 384); data properties return the stored value. -/
def loadedRead : LoadedProp → Nat
  | LoadedProp.plain v => v
  | LoadedProp.observable => 0
  | LoadedProp.forwarded v => v

/-- A sequence of writes to the `loaded` property. -/
def loadedWrites : LoadedProp → List Nat → LoadedProp × List Ev
  | p, [] => (p, [])
  | p, v :: vs =>
      let x := loadedWrite p v
      let y := loadedWrites x.1 vs
      (y.1, x.2 ++ y.2)

/-- The `\bexports\b` word-boundary scan used to embed `exportsRegExp`
(line 64). Word characters are `[A-Za-z0-9_]`. -/
def isWordChar (c : Char) : Bool :=
  c.isAlphanum || c = '_'

/-- A JavaScript line terminator: in a regular expression without the
`s` flag, `.` matches any character except these four. -/
def isLineTerminator (c : Char) : Bool :=
  c = '\n' || c = '\r' || c = '\u2028' || c = '\u2029'

/-- Whether `exports` occurs at the head of the character list with a
right word boundary. -/
def exportsAt : List Char → Bool
  | 'e' :: 'x' :: 'p' :: 'o' :: 'r' :: 't' :: 's' :: rest =>
      match rest with
      | [] => true
      | c :: _ => !isWordChar c
  | _ => false

/-- Scan with the previous character, testing the left word boundary. -/
def containsWordExportsGo : Option Char → List Char → Bool
  | prev, l =>
      ((match prev with
        | none => true
        | some c => !isWordChar c) && exportsAt l) ||
      (match l with
       | [] => false
       | c :: rest => containsWordExportsGo (some c) rest)

/-- `exportsRegExp.test(message)` (lines 64, 416). The pattern
`^.*?\bexports\b` is anchored at the start of the string and its `.`
excludes line terminators, so it matches exactly when `exports` occurs
as a whole word before the message's first line terminator: every
character preceding the match must be consumed by `.*?`. (The word
`exports` itself is all word characters, hence never contains a
terminator, and a terminator right after it is a valid `\b` boundary,
so truncating at the first terminator is an exact embedding.) -/
def containsWordExports (s : String) : Bool :=
  containsWordExportsGo none (s.toList.takeWhile fun c => !isLineTerminator c)

/-- Lines 405-406: throw unmasked when in debug mode or the error is not
locally maskable. -/
def maskDecision (debug : Bool) (err : RunError) : Bool :=
  debug || !(RunError.maskable err)

/-- Lines 413-416: a Declarative entry whose error is a `SyntaxError`, or
a `ReferenceError` whose message matches `exportsRegExp`, dirties the
package cache. -/
def dirtyDecision (isESM : Bool) (err : RunError) : Bool :=
  isESM &&
    (RunError.name err == "SyntaxError" ||
     (RunError.name err == "ReferenceError" &&
      containsWordExports (RunError.message err)))

/-- Success/failure epilogue (lines 375-432). On success: advance to the
phase's COMPLETED state, install the one-shot `loaded` observable for a
Declarative entry, or mark a Dynamic module loaded (first pass outside a
parse) firing hook then binding update (lines 395-397). On failure: force
`STATE_EXECUTION_COMPLETED`; outside debug mode for maskable errors, a
Declarative syntax error or reference error mentioning `exports` marks
the package cache dirty (lines 413-418); rethrow always. -/
def successStep (debug parsing isESM firstPass : Bool) (s : RS) :
    Except RunError Unit × EntryM × List Ev :=
  match s with
  | (none, en, tr) =>
      let stDone :=
        if parsing then EntryState.parsingCompleted
        else EntryState.executionCompleted
      let en1 := { en with state := stDone }
      let tr1 := tr ++ [Ev.stateSet stDone]
      if isESM then
        (Except.ok (), { en1 with loadedProp := LoadedProp.observable }, tr1)
      else if !parsing && firstPass then
        let w := loadedWrite en1.loadedProp 1
        (Except.ok (), { en1 with loadedProp := w.1 },
         tr1 ++ w.2 ++ [Ev.loadedHook, Ev.bindingsUpdate])
      else (Except.ok (), en1, tr1)
  | (some err, en, tr) =>
      let en1 := { en with state := EntryState.executionCompleted }
      let tr1 := tr ++ [Ev.stateSet EntryState.executionCompleted]
      if maskDecision debug err then (Except.error err, en1, tr1)
      else
        if dirtyDecision isESM err then
          (Except.error err, { en1 with cacheDirty := true },
           tr1 ++ [Ev.markDirty])
        else (Except.error err, en1, tr1)

/-- The execution driver `tryRun` (lines 263-432), as a function of the
process-wide parsing flag, the external outcomes, and the entry. Returns
the result (or thrown error), the updated entry, and the event trace. -/
def tryRunM (parsing : Bool) (env : RunEnv) (entry0 : EntryM) :
    Except RunError Unit × EntryM × List Ev :=
  let async := useAsync env.supportAwait entry0
  let isESM := entry0.type == EntryType.esm
  let entry1 := runtimeSetup entry0
  let stStart :=
    if parsing then EntryState.parsingStarted else EntryState.executionStarted
  let entry2 := { entry1 with state := stStart }
  let firstPass := entry1.runResult == none
  let s1 := firstPassStep env isESM firstPass
    (none, entry2, [Ev.stateSet stStart])
  let s2 := observeStep env parsing isESM firstPass s1
  let s3 := validateStep async isESM s2
  let s4 := finalReadStep env isESM s3
  successStep env.debug parsing isESM firstPass s4

/-! ## Import graph and `isDescendant` (lines 214-235) -/

/-- The import graph the driver's DFS walks: entries by id, with
`children` the per-entry child list (`entry.children` values). -/
structure Graph where
  nodes : Finset Nat
  children : Nat → List Nat

/-- Children of registered entries are registered entries. -/
def Graph.Closed (g : Graph) : Prop :=
  ∀ n ∈ g.nodes, ∀ c ∈ g.children n, c ∈ g.nodes

mutual

/-- `isDescendant(entry, parentEntry, seen)` (lines 214-235) with an
explicit recursion-depth budget `fuel`; `none` means the budget ran out.
The shared mutable `seen` set is threaded through the traversal exactly
as the source shares one `Set` across all recursive calls. -/
def isDescendantFuel (g : Graph) (entry : Nat) :
    Nat → Nat → Finset Nat → Option (Bool × Finset Nat)
  | 0, _, _ => none
  | fuel + 1, parentEntry, seen =>
      if parentEntry ∈ seen then some (false, seen)
      else childrenScan g entry fuel (g.children parentEntry)
        (insert parentEntry seen)
termination_by fuel _ _ => (fuel, 0)

/-- The `for (const name in children)` loop of lines 225-232: stop with
`true` at the first child equal to `entry` or with a positive recursive
answer, threading the shared `seen` set. -/
def childrenScan (g : Graph) (entry : Nat) :
    Nat → List Nat → Finset Nat → Option (Bool × Finset Nat)
  | _, [], seen => some (false, seen)
  | fuel, c :: cs, seen =>
      if entry = c then some (true, seen)
      else
        match isDescendantFuel g entry fuel c seen with
        | none => none
        | some (true, seen1) => some (true, seen1)
        | some (false, seen1) => childrenScan g entry fuel cs seen1
termination_by fuel l _ => (fuel, l.length + 1)

end

/-- `isDescendant(entry, parentEntry)` at the call site (line 159): the
driver calls it with `seen` undefined, i.e. a fresh empty set. The
budget `|nodes| + 1` is sufficient on closed graphs (see the claim on
termination). -/
def isDescendant (g : Graph) (entry parentEntry : Nat) : Bool :=
  match isDescendantFuel g entry (g.nodes.card + 1) parentEntry ∅ with
  | some p => p.1
  | none => false

/-! ## Compile driver run phase (`compile`, lines 138-212) -/

/-- What the driver can observe of `Entry.get(mod.parent)` (lines
191-193): whether the parent entry is Declarative and whether its
package is the default package. `none` models a null parent entry. -/
structure ParentInfo where
  isESM : Bool
  pkgDefault : Bool
  deriving Repr, DecidableEq

/-- `parentEntry === null ? false : parentEntry.type === TYPE_ESM`
(line 192). -/
def parentIsESM : Option ParentInfo → Bool
  | none => false
  | some p => p.isESM

/-- Whether the parent entry's package is the default package; a null
parent entry gives a null package, which is not the default (line 193,
197). -/
def parentPkgDefault : Option ParentInfo → Bool
  | none => false
  | some p => p.pkgDefault

/-- A captured stack frame as lines 200-207 test it: whether
`frame.getFileName()` is an absolute path and whether it lies inside the
engine's own source (`isOwnPath`). -/
structure Frame where
  isAbs : Bool
  isOwn : Bool
  deriving Repr, DecidableEq

/-- The frame scan of lines 200-207: `fallback()` is reached exactly
when some frame has an absolute file name outside the engine's own
source paths (the loop returns at the first such frame). -/
def anyExternalFrame (frames : List Frame) : Bool :=
  frames.any fun f => f.isAbs && !f.isOwn

/-- The declarative block of `compile` (lines 154-189) after a first
successful run: lazy circularity computation (lines 158-160), the
circular re-run with fresh exports and `codeWithTDZ` swap (lines
162-174), binding update and namespace finalization (lines 176-180), and
the `finally`-guarded parsing-flag release plus the post-sideload
execution run (lines 182-188 and 211). Returns result, final parsing
flag, entry, trace. -/
def esmAfterFirstRun (g : Graph) (entryId : Nat) (env2 env3 : RunEnv)
    (sideloaded : Bool) (parsingAfter : Bool) (e1 : EntryM)
    (tr : List Ev) : Except RunError Unit × Bool × EntryM × List Ev :=
  let cd := e1.compileData
  let e2 :=
    if cd.circular = -1 then
      { e1 with compileData :=
          { cd with circular := if isDescendant g entryId entryId then 1 else 0 } }
    else e1
  let tr2 := if cd.circular = -1 then tr ++ [Ev.circCheck] else tr
  if e2.compileData.circular = 1 then
    let cd2 := e2.compileData
    let e3 :=
      { e2 with circularFlag := true, runtimePresent := false,
                runResult := none,
                compileData :=
                  match cd2.codeWithTDZ with
                  | some c => { cd2 with code := some c }
                  | none => cd2 }
    let tr3 := tr2 ++ [Ev.exportsReplaced]
    match tryRunM true env2 e3 with
    | (Except.error er, e4, trB) =>
        (Except.error er, if sideloaded then false else parsingAfter, e4,
         tr3 ++ trB)
    | (Except.ok _, e4, trB) =>
        let tr4 := tr3 ++ trB ++ [Ev.bindingsUpdate]
        let tr5 :=
          if e4.namespaceDeferred then tr4 else tr4 ++ [Ev.finalizeNamespace]
        if sideloaded then
          match tryRunM false env3 e4 with
          | (r, e5, trC) => (r, false, e5, tr5 ++ trC)
        else (Except.ok (), parsingAfter, e4, tr5)
  else
    let tr4 := tr2 ++ [Ev.bindingsUpdate]
    let tr5 :=
      if e2.namespaceDeferred then tr4 else tr4 ++ [Ev.finalizeNamespace]
    if sideloaded then
      match tryRunM false env3 e2 with
      | (r, e5, trC) => (r, false, e5, tr5 ++ trC)
    else (Except.ok (), parsingAfter, e2, tr5)

/-- The run phase of `compile` (lines 138-212), entered once
`compileData` is resolved. Inputs: the import graph and this entry's id
(for the DFS), the parent-entry observation, the captured stack frames,
whether a function-valued `fallback` was supplied, whether the entry's
package is the default package, outcome environments for up to three
`tryRun` invocations, the process-wide parsing flag, and the entry.
Returns result, final parsing flag, entry, trace; consulting
`fallback()` is the `Ev.fallbackCalled` event. -/
def compileRunPhase (g : Graph) (entryId : Nat) (parent : Option ParentInfo)
    (frames : List Frame) (fallbackPresent isDefaultPkg : Bool)
    (env1 env2 env3 : RunEnv) (parsing0 : Bool) (entry0 : EntryM) :
    Except RunError Unit × Bool × EntryM × List Ev :=
  let isESM := entry0.type == EntryType.esm
  if !parsing0 then
    if isESM && entry0.state == EntryState.initial then
      -- lines 146-148: outermost sideload bootstrap.
      let e1 := { entry0 with state := EntryState.parsingStarted }
      let tr0 := [Ev.stateSet EntryState.parsingStarted]
      match tryRunM true env1 e1 with
      | (Except.error er, e2, trA) =>
          -- finally (lines 185-188): release the flag, rethrow.
          (Except.error er, false, e2, tr0 ++ trA)
      | (Except.ok _, e2, trA) =>
          esmAfterFirstRun g entryId env2 env3 true true e2 (tr0 ++ trA)
    else
      -- line 150: delegate directly to the execution driver.
      match tryRunM false env1 entry0 with
      | (r, e1, trA) => (r, false, e1, trA)
  else
    if isESM then
      match tryRunM true env1 entry0 with
      | (Except.error er, e2, trA) => (Except.error er, true, e2, trA)
      | (Except.ok _, e2, trA) =>
          esmAfterFirstRun g entryId env2 env3 false true e2 trA
    else
      -- lines 190-209: Dynamic entry with a possible fallback.
      if fallbackPresent &&
          (!parentIsESM parent && (isDefaultPkg || parentPkgDefault parent)) &&
          anyExternalFrame frames then
        (Except.ok (), true, entry0, [Ev.fallbackCalled])
      else
        match tryRunM true env1 entry0 with
        | (r, e1, trA) => (r, true, e1, trA)

/-- Whether this `tryRun` invocation is a first pass: after the runtime
setup of lines 277-285, `runtime._runResult` is still undefined
(line 295). -/
def firstPassOf (e : EntryM) : Bool :=
  (runtimeSetup e).runResult == none

/-- The error, if any, recorded before the validation of lines 346-359:
the host `_compile` outcome of a first-pass Declarative run, else the
observation-step outcome outside a parse. Dynamic first passes cannot
throw before validation (generator creation and its first step run no
user code). -/
def esmEarlyThrow (parsing : Bool) (env : RunEnv) (e : EntryM) :
    Option JsError :=
  if firstPassOf e && (e.type == EntryType.esm) then
    match env.hostOutcome with
    | some er => some er
    | none => if !parsing then env.observeOutcome else none
  else none

/-- `entry.running` as the validation of line 349 reads it: a first pass
has just cleared it (lines 323, 343); otherwise it is the value the
entry carried in (a re-entrant call from the module's own body). -/
def runningAtValidation (e : EntryM) : Bool :=
  !firstPassOf e && e.running

/-! ## Derived closed forms of the execution driver

These definitions name the states and outcomes `tryRun` reaches; they are
proved equal to the pipeline (`tryRunM`) below and exist to make the
theorems about it tractable. -/

/-- The entry after runtime setup and the STARTED-state assignment of
line 291. -/
def startedEntry (p : Bool) (e : EntryM) : EntryM :=
  { runtimeSetup e with
      state := if p then EntryState.parsingStarted
               else EntryState.executionStarted }

/-- The entry after a successful first-pass host call: continuation at
`k` observation steps, `running` cleared. -/
def fpEntry (p : Bool) (e : EntryM) (k : Nat) : EntryM :=
  { startedEntry p e with runResult := some k, running := false }

/-- The outcome of the validation of lines 346-359, as a function of the
fields it reads. -/
def validateOutcomeParts (async running gettersEmpty : Bool)
    (fa : Option (Nat × Nat)) : Option RunError :=
  if validateCond running async true gettersEmpty then
    match fa with
    | some lc => some (RunError.illegalAwait lc.1 lc.2 true)
    | none => none
  else none

/-- The validation outcome for a pending entry. -/
def validateOutcome (async : Bool) (en : EntryM) : Option RunError :=
  validateOutcomeParts async en.running en.gettersEmpty
    en.compileData.firstAwaitOutsideFunction

/-- The condition of lines 405-418 under which the error path marks the
package cache dirty: masking applies and the error matches the
Declarative syntax/reference-error test. -/
def dirtyCond (debug isESM : Bool) (err : RunError) : Prop :=
  maskDecision debug err = false ∧ dirtyDecision isESM err = true

instance (debug isESM : Bool) (err : RunError) :
    Decidable (dirtyCond debug isESM err) := by
  unfold dirtyCond
  exact inferInstance

/-- The error epilogue of lines 403-431. -/
def errFinish (debug isESM : Bool) (err : RunError) (en : EntryM)
    (tr : List Ev) : Except RunError Unit × EntryM × List Ev :=
  (Except.error err,
   { en with state := EntryState.executionCompleted,
             cacheDirty :=
               if dirtyCond debug isESM err then true else en.cacheDirty },
   tr ++ Ev.stateSet EntryState.executionCompleted ::
     (if dirtyCond debug isESM err then [Ev.markDirty] else []))

/-- The success epilogue of lines 375-392 for a Declarative entry. -/
def okFinishESM (p : Bool) (en : EntryM) (tr : List Ev) :
    Except RunError Unit × EntryM × List Ev :=
  (Except.ok (),
   { en with
       state := if p then EntryState.parsingCompleted
                else EntryState.executionCompleted,
       loadedProp := LoadedProp.observable },
   tr ++ [Ev.stateSet
            (if p then EntryState.parsingCompleted
             else EntryState.executionCompleted)])

/-- The tail of the Declarative pipeline from the validation on:
validation error, or the final read (skipped while `running`), then the
matching epilogue. -/
def esmTailOut (debug p async : Bool) (fo : Option JsError) (en : EntryM)
    (tr : List Ev) : Except RunError Unit × EntryM × List Ev :=
  match validateOutcome async en with
  | some verr => errFinish debug true verr en tr
  | none =>
      if en.running then okFinishESM p en tr
      else
        match fo with
        | some erF =>
            errFinish debug true (RunError.js erF)
              { en with running := false } tr
        | none => okFinishESM p { en with running := false } tr

/-- Closed form of the whole Declarative run (proved equal to `tryRunM`
for Declarative entries). -/
def esmRunOut (p : Bool) (env : RunEnv) (e : EntryM) :
    Except RunError Unit × EntryM × List Ev :=
  let st := if p then EntryState.parsingStarted
            else EntryState.executionStarted
  let async := useAsync env.supportAwait e
  if firstPassOf e then
    let tr1 := [Ev.stateSet st, Ev.bodyExec]
    match env.hostOutcome with
    | some er =>
        errFinish env.debug true (RunError.js er)
          { startedEntry p e with running := false } tr1
    | none =>
        if p then
          esmTailOut env.debug p async env.finalOutcome (fpEntry p e 0) tr1
        else
          match env.observeOutcome with
          | some er =>
              errFinish env.debug true (RunError.js er) (fpEntry p e 0) tr1
          | none =>
              esmTailOut env.debug p async env.finalOutcome (fpEntry p e 1)
                tr1
  else
    esmTailOut env.debug p async env.finalOutcome (startedEntry p e)
      [Ev.stateSet st]

/-! ## Helpers for stating the claims -/

/-- The successive values assigned to `entry.state` along a trace. -/
def stateSets : List Ev → List EntryState
  | [] => []
  | Ev.stateSet s :: tr => s :: stateSets tr
  | _ :: tr => stateSets tr

/-- Whether a run result is a thrown error. -/
def exceptIsError : Except RunError Unit → Bool
  | Except.error _ => true
  | Except.ok _ => false

/-- The state machine exactly as the claim states it:
INITIAL → PARSING_STARTED → PARSING_COMPLETED or
INITIAL → EXECUTION_STARTED → EXECUTION_COMPLETED. -/
def machineStep (a b : EntryState) : Prop :=
  (a = EntryState.initial ∧ b = EntryState.parsingStarted) ∨
  (a = EntryState.parsingStarted ∧ b = EntryState.parsingCompleted) ∨
  (a = EntryState.initial ∧ b = EntryState.executionStarted) ∨
  (a = EntryState.executionStarted ∧ b = EntryState.executionCompleted)

instance (a b : EntryState) : Decidable (machineStep a b) := by
  unfold machineStep
  exact inferInstance

/-- All successive pairs of `a :: l` satisfy `R`. -/
def chainOK (R : EntryState → EntryState → Prop) :
    EntryState → List EntryState → Prop
  | _, [] => True
  | a, b :: rest => R a b ∧ chainOK R b rest

instance (R : EntryState → EntryState → Prop)
    [DecidableRel R] (a : EntryState) (l : List EntryState) :
    Decidable (chainOK R a l) := by
  induction l generalizing a with
  | nil => exact isTrue trivial
  | cons b rest ih =>
      haveI := ih b
      exact instDecidableAnd

/-! ### The claims exactly as stated (for refutation) -/

/-- Claim C1 as stated: with no prior error, not running, `async`
eligible, Declarative, a recorded top-level await, and EMPTY getters,
the illegal-await error is raised with the recorded position; under the
negation of any condition it is not. -/
def illegalAwaitClaim : Prop :=
  ∀ (parsing : Bool) (env : RunEnv) (e : EntryM) (l c : Nat),
    e.compileData.firstAwaitOutsideFunction = some (l, c) →
    ((esmEarlyThrow parsing env e = none ∧
      runningAtValidation e = false ∧
      useAsync env.supportAwait e = true ∧
      e.type = EntryType.esm ∧
      e.gettersEmpty = true) ↔
     (tryRunM parsing env e).1 = Except.error (RunError.illegalAwait l c true))

/-- Claim C3 as stated: for a Dynamic entry with a function-valued
fallback, `fallback()` is consulted iff neither the entry nor its parent
is Declarative, one of their packages is the default package, and an
external stack frame has an absolute path outside the engine's own
source. (No condition on the process-wide parsing flag.) -/
def fallbackClaim : Prop :=
  ∀ (g : Graph) (entryId : Nat) (parent : Option ParentInfo)
    (frames : List Frame) (isDefaultPkg : Bool) (env1 env2 env3 : RunEnv)
    (parsing0 : Bool) (e : EntryM),
    e.type = EntryType.cjs →
    (Ev.fallbackCalled ∈
        (compileRunPhase g entryId parent frames true isDefaultPkg
          env1 env2 env3 parsing0 e).2.2.2 ↔
      (parentIsESM parent = false ∧
       (isDefaultPkg = true ∨ parentPkgDefault parent = true) ∧
       anyExternalFrame frames = true))

/-- The message test as claim C9 words it: the message textually
contains an `exports` identifier anywhere — no anchoring, scanning past
line terminators. -/
def mentionsExportsWord (s : String) : Bool :=
  containsWordExportsGo none s.toList

/-- Claim C9 as stated: on every thrown execution error the package
cache is marked dirty iff the run is outside debug mode, the error is
maskable, the entry is Declarative, and the error is a SyntaxError or a
ReferenceError whose message textually contains an `exports` identifier
(anywhere in the message). -/
def cacheDirtyClaim : Prop :=
  ∀ (parsing : Bool) (env : RunEnv) (e : EntryM) (err : RunError)
    (e2 : EntryM) (tr : List Ev),
    tryRunM parsing env e = (Except.error err, e2, tr) →
    (Ev.markDirty ∈ tr ↔
      (env.debug = false ∧ RunError.maskable err = true ∧
       e.type = EntryType.esm ∧
       (RunError.name err = "SyntaxError" ∨
        (RunError.name err = "ReferenceError" ∧
         mentionsExportsWord (RunError.message err) = true))))

/-- A transition the claim allows: a machine edge, or the error rule
forcing EXECUTION_COMPLETED when the run threw. -/
def claimedStep (res : Except RunError Unit) (a b : EntryState) : Prop :=
  machineStep a b ∨
    (exceptIsError res = true ∧ b = EntryState.executionCompleted)

instance (res : Except RunError Unit) : DecidableRel (claimedStep res) :=
  fun a b => by
    unfold claimedStep
    exact inferInstance

/-- Claim C5 as stated: `entry.state` advances only along the defined
machine, except that a thrown error may force EXECUTION_COMPLETED, and
every thrown path ends at EXECUTION_COMPLETED. -/
def stateMachineClaim : Prop :=
  ∀ (parsing : Bool) (env : RunEnv) (e : EntryM),
    chainOK (claimedStep (tryRunM parsing env e).1)
      e.state (stateSets (tryRunM parsing env e).2.2) ∧
    (exceptIsError (tryRunM parsing env e).1 = true →
      (tryRunM parsing env e).2.1.state = EntryState.executionCompleted)

/-! ### Concrete instances for witnesses and counterexamples -/

/-- A two-node import cycle: `0 → 1 → 0`. -/
def gCyc : Graph :=
  ⟨{0, 1}, fun n => if n = 0 then [1] else if n = 1 then [0] else []⟩

/-- A `CompileData` fresh from a Declarative parse with unknown
circularity. -/
def cdFresh : CompileData :=
  ⟨none, some "tdz", SourceTypeE.module, 0, -1, none⟩

/-- A pristine Declarative entry about to bootstrap. -/
def eFresh : EntryM :=
  { state := EntryState.initial, type := EntryType.esm, running := false,
    runtimePresent := false, runResult := none, gettersEmpty := true,
    compileData := cdFresh, circularFlag := false, cacheDirty := false,
    loadedProp := LoadedProp.plain 0, optAwait := false,
    extnameMjs := false, namespaceDeferred := false }

/-- All external calls succeed; not in debug mode; host supports
top-level await. -/
def envOk : RunEnv := ⟨true, false, none, none, none⟩

/-- Whether a run result is the synthesized illegal-await error. -/
def resultIllegalAwait : Except RunError Unit → Bool
  | Except.error (RunError.illegalAwait _ _ _) => true
  | _ => false

/-- The transition relation the code actually satisfies: `tryRun` re-sets
the current phase's STARTED state regardless of the prior state (line
291), the claimed machine edges hold, and a thrown error forces
EXECUTION_COMPLETED. -/
def amendedStep (parsing errFlag : Bool) (a b : EntryState) : Prop :=
  b = (if parsing then EntryState.parsingStarted
       else EntryState.executionStarted) ∨
  machineStep a b ∨
  (errFlag = true ∧ b = EntryState.executionCompleted)

/-- An entry with no compile artifacts yet. -/
def stInit : CacheSt :=
  ⟨none, none, EntryType.cjs, EntryState.initial⟩

/-- A Declarative `CompileData` that recorded a top-level await outside
any function at line 3, column 5. -/
def cdAwait : CompileData :=
  ⟨some "code", none, SourceTypeE.module, 0, 0, some (3, 5)⟩

/-- A Declarative entry with a recorded top-level await, `await` opted in,
and NO live-binding getters. -/
def eAwaitEmpty : EntryM :=
  { eFresh with compileData := cdAwait, optAwait := true }

/-- The same entry but with live-binding getters present. -/
def eAwaitGetters : EntryM :=
  { eAwaitEmpty with gettersEmpty := false }

/-- The host `_compile` throws a maskable `SyntaxError`. -/
def envSyn : RunEnv :=
  ⟨true, false, some ⟨"SyntaxError", "unexpected token", true⟩, none, none⟩

/-- The host `_compile` throws a maskable `ReferenceError` whose message
mentions `exports` only on its second line. -/
def envRefNl : RunEnv :=
  ⟨true, false, some ⟨"ReferenceError", "x\nexports", true⟩, none, none⟩

/-- A Dynamic entry already parsed (continuation finished), about to be
run directly: its state is PARSING_COMPLETED. -/
def eParsedCjs : EntryM :=
  { state := EntryState.parsingCompleted, type := EntryType.cjs,
    running := false, runtimePresent := true, runResult := some 2,
    gettersEmpty := true, compileData := cdFresh, circularFlag := false,
    cacheDirty := false, loadedProp := LoadedProp.plain 0,
    optAwait := false, extnameMjs := false, namespaceDeferred := false }

/-! ## Support lemmas -/

theorem beq_entryType_cjs_esm :
    (EntryType.cjs == EntryType.esm) = false := rfl

theorem beq_entryType_esm_esm :
    (EntryType.esm == EntryType.esm) = true := rfl

theorem stateSets_append (l1 l2 : List Ev) :
    stateSets (l1 ++ l2) = stateSets l1 ++ stateSets l2 := by
  induction l1 with
  | nil => rfl
  | cons a t ih => cases a <;> simp [stateSets, ih]

theorem validateCond_true_iff (r a i g : Bool) :
    validateCond r a i g = true ↔
      (r = false ∧ a = true ∧ i = true ∧ g = false) := by
  simp [validateCond]
  tauto

theorem validateCond_running (a i g : Bool) :
    validateCond true a i g = false := by
  simp [validateCond]

theorem validateCond_notESM (r a g : Bool) :
    validateCond r a false g = false := by
  simp [validateCond]

theorem dirtyDecision_cjs (err : RunError) :
    dirtyDecision false err = false := by
  simp [dirtyDecision]

theorem dirty_iff (d : Bool) (err : RunError) :
    dirtyCond d true err ↔
      (d = false ∧ RunError.maskable err = true ∧
       (RunError.name err = "SyntaxError" ∨
        (RunError.name err = "ReferenceError" ∧
         containsWordExports (RunError.message err) = true))) := by
  simp [dirtyCond, maskDecision, dirtyDecision]
  tauto

theorem successStep_error (debug parsing isESM firstPass : Bool)
    (err : RunError) (en : EntryM) (tr : List Ev) :
    successStep debug parsing isESM firstPass (some err, en, tr) =
      errFinish debug isESM err en tr := by
  by_cases h1 : maskDecision debug err = true <;>
  by_cases h2 : dirtyDecision isESM err = true <;>
    simp [successStep, errFinish, dirtyCond, h1, h2]

theorem successStep_ok_esm (debug p fp : Bool) (en : EntryM)
    (tr : List Ev) :
    successStep debug p true fp (none, en, tr) = okFinishESM p en tr := by
  simp [successStep, okFinishESM]

theorem observeStep_err (env : RunEnv) (p i f : Bool) (er : RunError)
    (en : EntryM) (tr : List Ev) :
    observeStep env p i f (some er, en, tr) = (some er, en, tr) := rfl

theorem validateStep_err (a i : Bool) (er : RunError) (en : EntryM)
    (tr : List Ev) :
    validateStep a i (some er, en, tr) = (some er, en, tr) := rfl

theorem finalReadStep_err (env : RunEnv) (i : Bool) (er : RunError)
    (en : EntryM) (tr : List Ev) :
    finalReadStep env i (some er, en, tr) = (some er, en, tr) := rfl

theorem validateStep_pending (async : Bool) (en : EntryM) (tr : List Ev) :
    validateStep async true (none, en, tr) =
      (validateOutcome async en, en, tr) := by
  by_cases hc : validateCond en.running async true en.gettersEmpty = true <;>
  cases hfa : en.compileData.firstAwaitOutsideFunction <;>
    simp [validateStep, validateOutcome, validateOutcomeParts, hc, hfa]

theorem esmTail_eq (debug p async fp : Bool) (env : RunEnv) (en : EntryM)
    (tr : List Ev) :
    successStep debug p true fp
        (finalReadStep env true (validateStep async true (none, en, tr))) =
      esmTailOut debug p async env.finalOutcome en tr := by
  rw [validateStep_pending]
  cases hv : validateOutcome async en with
  | some verr =>
      simp [finalReadStep, esmTailOut, hv, successStep_error]
  | none =>
      cases hrn : en.running <;>
      cases hfo : env.finalOutcome <;>
        simp [finalReadStep, esmTailOut, hv, hrn, hfo, successStep_error,
          successStep_ok_esm]

/-- Equality of the Declarative pipeline with its closed form. -/
theorem tryRunM_esm_eq (p : Bool) (env : RunEnv) (e : EntryM)
    (he : e.type = EntryType.esm) :
    tryRunM p env e = esmRunOut p env e := by
  unfold tryRunM esmRunOut
  cases hrp : e.runtimePresent <;>
  cases hrr : e.runResult <;>
  rcases hho : env.hostOutcome with _ | erH <;>
  rcases hoo : env.observeOutcome with _ | erO <;>
  cases hp : p <;>
    simp_all [firstPassStep, observeStep, esmTail_eq, successStep_error,
      observeStep_err, validateStep_err, finalReadStep_err,
      firstPassOf, runtimeSetup, startedEntry, fpEntry,
      beq_entryType_esm_esm]

theorem stateSets_loadedWrite (q : LoadedProp) (v : Nat) :
    stateSets (loadedWrite q v).2 = [] := by
  cases q <;> simp [loadedWrite] <;> (try split) <;> rfl

theorem count_loadedWrite (q : LoadedProp) (v : Nat) (ev : Ev)
    (h1 : ev ≠ Ev.bindingsUpdate) (h2 : ev ≠ Ev.loadedHook) :
    (loadedWrite q v).2.count ev = 0 := by
  cases q <;> simp [loadedWrite] <;> (try split) <;> simp_all

theorem mem_loadedWrite (q : LoadedProp) (v : Nat) (ev : Ev)
    (h1 : ev ≠ Ev.bindingsUpdate) (h2 : ev ≠ Ev.loadedHook) :
    ev ∉ (loadedWrite q v).2 := by
  cases q <;> simp [loadedWrite] <;> (try split) <;> simp_all

theorem markDirty_mem_suffix (C : Prop) [Decidable C] :
    (Ev.markDirty ∈ if C then [Ev.markDirty] else ([] : List Ev)) ↔ C := by
  split <;> simp_all

theorem stateSets_suffix (C : Prop) [Decidable C] :
    stateSets (if C then [Ev.markDirty] else []) = [] := by
  split <;> rfl

theorem count_bodyExec_suffix (C : Prop) [Decidable C] :
    (if C then [Ev.markDirty] else ([] : List Ev)).count Ev.bodyExec = 0 := by
  split <;> rfl

theorem mem_suffix_ne (C : Prop) [Decidable C] (ev : Ev)
    (h : ev ≠ Ev.markDirty) :
    ev ∉ (if C then [Ev.markDirty] else ([] : List Ev)) := by
  split <;> simp_all

set_option maxHeartbeats 1000000 in
/-- All facts the claims need about a Dynamic run. -/
theorem tryRunM_cjs_spec (p : Bool) (env : RunEnv) (e : EntryM)
    (r : Except RunError Unit) (e2 : EntryM) (tr : List Ev)
    (he : e.type = EntryType.cjs)
    (h : (r, e2, tr) = tryRunM p env e) :
    e2.type = e.type ∧
    e2.compileData = e.compileData ∧
    e2.gettersEmpty = e.gettersEmpty ∧
    e2.cacheDirty = e.cacheDirty ∧
    e2.runtimePresent = true ∧
    stateSets tr =
      [if p then EntryState.parsingStarted else EntryState.executionStarted,
       e2.state] ∧
    (exceptIsError r = true → e2.state = EntryState.executionCompleted) ∧
    (r = Except.ok () → e2.state =
      (if p then EntryState.parsingCompleted
       else EntryState.executionCompleted)) ∧
    tr.count Ev.bodyExec ≤ 1 ∧
    resultIllegalAwait r = false ∧
    Ev.markDirty ∉ tr ∧
    Ev.fallbackCalled ∉ tr ∧
    Ev.circCheck ∉ tr ∧
    Ev.exportsReplaced ∉ tr := by
  unfold tryRunM runtimeSetup at h
  cases hrp : e.runtimePresent <;>
  rcases hrr : e.runResult with _ | (_ | _ | k) <;>
  cases hrun : e.running <;>
  cases hfo : env.finalOutcome <;>
  cases hp : p <;>
    simp_all [firstPassStep, observeStep, validateStep, finalReadStep,
      successStep, successStep_error, errFinish, dirtyCond,
      validateCond_notESM, dirtyDecision_cjs,
      stateSets, stateSets_append, stateSets_loadedWrite,
      count_loadedWrite, mem_loadedWrite,
      resultIllegalAwait, exceptIsError, beq_entryType_cjs_esm]

set_option maxHeartbeats 1000000 in
/-- All facts the claims need about a Declarative run, derived from the
closed form. -/
theorem tryRunM_esm_final (p : Bool) (env : RunEnv) (e : EntryM)
    (r : Except RunError Unit) (e2 : EntryM) (tr : List Ev)
    (he : e.type = EntryType.esm)
    (h : (r, e2, tr) = tryRunM p env e) :
    e2.type = e.type ∧
    e2.compileData = e.compileData ∧
    e2.runtimePresent = true ∧
    e2.gettersEmpty = e.gettersEmpty ∧
    stateSets tr =
      [if p then EntryState.parsingStarted else EntryState.executionStarted,
       e2.state] ∧
    tr.count Ev.bodyExec = (if firstPassOf e then 1 else 0) ∧
    Ev.fallbackCalled ∉ tr ∧
    Ev.circCheck ∉ tr ∧
    Ev.exportsReplaced ∉ tr ∧
    (r = Except.ok () →
      e2.state =
        (if p then EntryState.parsingCompleted
         else EntryState.executionCompleted) ∧
      e2.loadedProp = LoadedProp.observable ∧
      firstPassOf e2 = false ∧
      e2.cacheDirty = e.cacheDirty ∧
      Ev.markDirty ∉ tr) ∧
    (∀ err, r = Except.error err →
      e2.state = EntryState.executionCompleted ∧
      (Ev.markDirty ∈ tr ↔ dirtyCond env.debug true err) ∧
      (Ev.markDirty ∈ tr → e2.cacheDirty = true) ∧
      (Ev.markDirty ∉ tr → e2.cacheDirty = e.cacheDirty)) := by
  rw [tryRunM_esm_eq p env e he] at h
  unfold esmRunOut at h
  cases hrp : e.runtimePresent <;>
  cases hrr : e.runResult <;>
  cases hrun : e.running <;>
  rcases hho : env.hostOutcome with _ | erH <;>
  rcases hoo : env.observeOutcome with _ | erO <;>
  cases hp : p <;>
    simp_all [firstPassOf, runtimeSetup, startedEntry, fpEntry,
      esmTailOut, validateOutcome, validateOutcomeParts,
      validateCond_running, errFinish, okFinishESM,
      stateSets, stateSets_append, stateSets_suffix,
      count_bodyExec_suffix, markDirty_mem_suffix, mem_suffix_ne,
      exceptIsError, beq_entryType_esm_esm] <;>
  rcases hfo : env.finalOutcome with _ | erF <;>
  rcases hvc : validateCond false (useAsync env.supportAwait e) true
      e.gettersEmpty with _ | _ <;>
  rcases hfa : e.compileData.firstAwaitOutsideFunction with _ | ⟨l0, c0⟩ <;>
    simp_all [firstPassOf, runtimeSetup, startedEntry, fpEntry,
      esmTailOut, validateOutcome, validateOutcomeParts,
      validateCond_running, errFinish, okFinishESM,
      stateSets, stateSets_append, stateSets_suffix,
      count_bodyExec_suffix, markDirty_mem_suffix, mem_suffix_ne,
      exceptIsError, beq_entryType_esm_esm]

set_option maxHeartbeats 1000000 in
/-- The illegal-await error is raised exactly under the code's guard:
no earlier error, not running, `async` eligible, getters NOT empty. -/
theorem tryRunM_illegal_iff (p : Bool) (env : RunEnv) (e : EntryM)
    (l c : Nat) (he : e.type = EntryType.esm)
    (hfa : e.compileData.firstAwaitOutsideFunction = some (l, c)) :
    (tryRunM p env e).1 = Except.error (RunError.illegalAwait l c true) ↔
      (esmEarlyThrow p env e = none ∧
       runningAtValidation e = false ∧
       useAsync env.supportAwait e = true ∧
       e.gettersEmpty = false) := by
  rw [tryRunM_esm_eq p env e he]
  unfold esmRunOut
  cases hrp : e.runtimePresent <;>
  cases hrr : e.runResult <;>
  cases hrun : e.running <;>
  rcases hho : env.hostOutcome with _ | erH <;>
  rcases hoo : env.observeOutcome with _ | erO <;>
  cases hp : p <;>
    simp_all [firstPassOf, runtimeSetup, startedEntry, fpEntry, esmTailOut,
      validateOutcome, validateOutcomeParts, validateCond_running,
      errFinish, okFinishESM, esmEarlyThrow, runningAtValidation,
      beq_entryType_esm_esm] <;>
  rcases hfo : env.finalOutcome with _ | erF <;>
  cases ha : useAsync env.supportAwait e <;>
  cases hg : e.gettersEmpty <;>
    simp_all [validateCond, errFinish, okFinishESM, esmTailOut,
      validateOutcome, validateOutcomeParts]

/-! ## Claims on the caching fragment -/

theorem compileCaching_count_zero (p : Bool) (c : String)
    (cres : Except JsError CompileData) (st : CacheSt)
    (h : cachedReady st) :
    (compileCaching p c cres st).2.2 = 0 := by
  unfold compileCaching
  rcases h with h | ⟨cd, hcd, ht⟩
  · cases he : st.entryCompileData with
    | none => exact absurd he h
    | some cd => simp [he]
  · cases he : st.entryCompileData with
    | some cd2 => simp [he]
    | none => simp [he, hcd, ht]

theorem compileCaching_count_le_one (p : Bool) (c : String)
    (cres : Except JsError CompileData) (st : CacheSt) :
    (compileCaching p c cres st).2.2 ≤ 1 := by
  unfold compileCaching freshCompile
  cases he : st.entryCompileData
  · cases hpc : st.pkgCache
    · cases cres <;> simp
    · by_cases ht : (st.pkgCache.get (by simp [hpc])).transforms = 0
      · simp_all
      · cases cres <;> simp_all
  · simp

theorem compileCaching_ready_of_ok (p : Bool) (c : String)
    (cres : Except JsError CompileData) (st : CacheSt)
    (cd : CompileData)
    (hok : (compileCaching p c cres st).2.1 = Except.ok cd) :
    cachedReady (compileCaching p c cres st).1 := by
  unfold compileCaching
  cases he : st.entryCompileData with
  | some cd0 => simp [cachedReady]
  | none =>
      cases hpc : st.pkgCache with
      | none =>
          unfold compileCaching freshCompile at hok
          rw [he, hpc] at hok
          cases cres with
          | error er => exact absurd hok (by simp)
          | ok cd0 => simp [freshCompile, cachedReady]
      | some cached =>
          by_cases ht : cached.transforms = 0
          · simp only [if_pos ht, cachedReady]
            refine Or.inr ⟨_, rfl, ?_⟩
            split <;> simpa using ht
          · simp only [if_neg ht]
            unfold compileCaching at hok
            rw [he, hpc] at hok
            simp only [if_neg ht] at hok
            cases cres with
            | error er =>
                unfold freshCompile at hok
                exact absurd hok (by simp)
            | ok cd0 => simp [freshCompile, cachedReady]

/-- C4: repeated `compile` requests for the same cache key without
invalidation invoke the Caching Compiler at most once; once the state is
ready (entry `compileData` set, or a fresh cached record), subsequent
calls reuse the stored `CompileData` and never call the compiler
again. -/
theorem claim_C4_compiler_at_most_once (p : Bool) (c : String)
    (cres : Except JsError CompileData) (st : CacheSt) (cd : CompileData)
    (hok : (compileCaching p c cres st).2.1 = Except.ok cd) :
    (compileCaching p c cres st).2.2 ≤ 1 ∧
    ∀ (p2 : Bool) (c2 : String) (cres2 : Except JsError CompileData),
      (compileCaching p2 c2 cres2 (compileCaching p c cres st).1).2.2 = 0 :=
  ⟨compileCaching_count_le_one p c cres st,
   fun p2 c2 cres2 =>
     compileCaching_count_zero p2 c2 cres2 _
       (compileCaching_ready_of_ok p c cres st cd hok)⟩

/-- C4 witness: a concrete first compile followed by a second call that
does not invoke the compiler. -/
theorem claim_C4_witness :
    (compileCaching true "src" (Except.ok cdFresh) stInit).2.2 ≤ 1 ∧
    ∀ (p2 : Bool) (c2 : String) (cres2 : Except JsError CompileData),
      (compileCaching p2 c2 cres2
        (compileCaching true "src" (Except.ok cdFresh) stInit).1).2.2 = 0 :=
  claim_C4_compiler_at_most_once true "src" (Except.ok cdFresh) stInit
    { cdFresh with code := some "src" } (by rfl)

/-- C7: in the fresh-compile path, under the default package with a
Dynamic entry whose only transform is the eval rewrite, the transformed
code is discarded (code reverts to the raw content, transforms reset to
zero); under any other package, resolved type, or transform combination
the revert does not occur (the code is kept, except that a null code is
filled with the raw content). -/
theorem claim_C7_eval_revert (p : Bool) (c : String) (cd0 : CompileData)
    (st : CacheSt) (hentry : st.entryCompileData = none)
    (hstale : ∀ cached, st.pkgCache = some cached → cached.transforms ≠ 0) :
    ∃ st2 cdF,
      compileCaching p c (Except.ok cd0) st = (st2, Except.ok cdF, 1) ∧
      ((p = true ∧ st2.entryType = EntryType.cjs ∧
          cd0.transforms = TRANSFORMS_EVAL) →
        cdF.code = some c ∧ cdF.transforms = 0) ∧
      (¬(p = true ∧ st2.entryType = EntryType.cjs ∧
          cd0.transforms = TRANSFORMS_EVAL) →
        cdF.transforms = cd0.transforms ∧
        cdF.code = (if cd0.code = none then some c else cd0.code)) := by
  have hfresh : compileCaching p c (Except.ok cd0) st =
      freshCompile p c (Except.ok cd0) st := by
    unfold compileCaching
    rw [hentry]
    cases hpc : st.pkgCache with
    | none => rfl
    | some cached => simp [hstale cached hpc]
  rw [hfresh]
  unfold freshCompile
  refine ⟨_, _, rfl, ?_, ?_⟩ <;> intro h2
  · have hC : p = true ∧
        (if cd0.sourceType = SourceTypeE.module then EntryType.esm
         else st.entryType) = EntryType.cjs ∧
        cd0.transforms = TRANSFORMS_EVAL := h2
    simp only [if_pos hC]
    constructor <;> split <;> rfl
  · have hC : ¬(p = true ∧
        (if cd0.sourceType = SourceTypeE.module then EntryType.esm
         else st.entryType) = EntryType.cjs ∧
        cd0.transforms = TRANSFORMS_EVAL) := fun hc => h2 hc
    simp only [if_neg hC]
    constructor
    · split <;> rfl
    · split <;> simp_all

/-- C7 witness: a concrete default-package Dynamic compile whose only
transform is the eval rewrite reverts to the raw source. -/
theorem claim_C7_witness :
    ∃ st2 cdF,
      compileCaching true "raw" (Except.ok
          ⟨some "wrapped", none, SourceTypeE.script, TRANSFORMS_EVAL, -1,
           none⟩) stInit = (st2, Except.ok cdF, 1) ∧
      cdF.code = some "raw" ∧ cdF.transforms = 0 := by
  obtain ⟨st2, cdF, heq, hpos, hneg⟩ :=
    claim_C7_eval_revert true "raw"
      ⟨some "wrapped", none, SourceTypeE.script, TRANSFORMS_EVAL, -1, none⟩
      stInit rfl (by intro cached h; exact Option.noConfusion h)
  have hty : st2.entryType = EntryType.cjs := by
    have := heq
    rw [show compileCaching true "raw" (Except.ok
        ⟨some "wrapped", none, SourceTypeE.script, TRANSFORMS_EVAL, -1,
         none⟩) stInit =
      (⟨some ⟨some "raw", none, SourceTypeE.script, 0, -1, none⟩,
        some ⟨some "raw", none, SourceTypeE.script, 0, -1, none⟩,
        EntryType.cjs, EntryState.initial⟩,
       Except.ok ⟨some "raw", none, SourceTypeE.script, 0, -1, none⟩,
       1) from rfl] at this
    obtain ⟨h1, -⟩ := Prod.mk.injEq .. ▸ this.symm
    rw [h1]
  obtain ⟨hc, ht⟩ := hpos ⟨rfl, hty, rfl⟩
  exact ⟨st2, cdF, heq, hc, ht⟩

/-! ## Claims on the execution driver -/

/-- C1 counterexample: the claim as stated (getters EMPTY) fails on a
concrete Declarative entry with a recorded top-level await and no
getters: the code runs to completion without synthesizing the error. -/
theorem claim_C1_counterexample : ¬ illegalAwaitClaim := by
  intro hcl
  have h2 := (hcl true envOk eAwaitEmpty 3 5 rfl).mp
    ⟨rfl, rfl, rfl, rfl, rfl⟩
  rw [show (tryRunM true envOk eAwaitEmpty).1 = Except.ok () from rfl] at h2
  exact Except.noConfusion h2

/-- C1 (amended): the illegal-await error is raised iff no earlier error
occurred, the entry is not running, `async` is eligible, the entry is
Declarative, an await outside any function was recorded, and the entry
HAS live-binding getters (`entry.getters` non-empty) — the code guards on
`! isObjectEmpty(entry.getters)`, the opposite of the claimed polarity;
the error carries exactly the recorded line/column and the module flag. -/
theorem claim_C1_illegal_await (parsing : Bool) (env : RunEnv) (e : EntryM)
    (l c : Nat)
    (hfa : e.compileData.firstAwaitOutsideFunction = some (l, c)) :
    (tryRunM parsing env e).1 =
        Except.error (RunError.illegalAwait l c true) ↔
      (esmEarlyThrow parsing env e = none ∧
       runningAtValidation e = false ∧
       useAsync env.supportAwait e = true ∧
       e.type = EntryType.esm ∧
       e.gettersEmpty = false) := by
  cases he : e.type with
  | esm =>
      rw [tryRunM_illegal_iff parsing env e l c he hfa]
      simp [he]
  | cjs =>
      rcases hEq : tryRunM parsing env e with ⟨r, e2, tr⟩
      obtain ⟨-, -, -, -, -, -, -, -, -, hilleg, -, -, -, -⟩ :=
        tryRunM_cjs_spec parsing env e r e2 tr he hEq.symm
      constructor
      · intro hres
        rw [show (r, e2, tr).1 = r from rfl] at hres
        rw [hres] at hilleg
        exact absurd hilleg (by simp [resultIllegalAwait])
      · rintro ⟨-, -, -, hesm, -⟩
        exact EntryType.noConfusion hesm

/-- C1 witness: with getters present, the error is synthesized with the
recorded position. -/
theorem claim_C1_witness :
    (tryRunM true envOk eAwaitGetters).1 =
      Except.error (RunError.illegalAwait 3 5 true) :=
  (claim_C1_illegal_await true envOk eAwaitGetters 3 5 rfl).mpr
    ⟨rfl, rfl, rfl, rfl, rfl⟩

theorem loadedWrites_zeros (zs : List Nat) (hz : ∀ z ∈ zs, z = 0) :
    loadedWrites LoadedProp.observable zs = (LoadedProp.observable, []) := by
  induction zs with
  | nil => rfl
  | cons z t ih =>
      have hz0 : z = 0 := hz z (by simp)
      have iht := ih fun x hx => hz x (by simp [hx])
      simp [loadedWrites, loadedWrite, hz0, iht]

theorem loadedWrites_forwarded (w : Nat) (vs : List Nat) :
    (loadedWrites (LoadedProp.forwarded w) vs).2 = [] ∧
    ∃ u, (loadedWrites (LoadedProp.forwarded w) vs).1 =
      LoadedProp.forwarded u := by
  induction vs generalizing w with
  | nil => exact ⟨rfl, w, rfl⟩
  | cons v t ih =>
      simpa [loadedWrites, loadedWrite] using ih v

theorem loadedWrites_append (q : LoadedProp) (l1 l2 : List Nat) :
    loadedWrites q (l1 ++ l2) =
      ((loadedWrites (loadedWrites q l1).1 l2).1,
       (loadedWrites q l1).2 ++ (loadedWrites (loadedWrites q l1).1 l2).2) := by
  induction l1 generalizing q with
  | nil => simp [loadedWrites]
  | cons v vs ih => simp [loadedWrites, ih]

/-- C8: after every successful Declarative run the host module's `loaded`
property is the one-shot observable: it reads as false until the first
truthy write, which forwards the value, fires exactly one binding update
and one loaded hook (in the accessor's order), and further writes never
re-fire either. -/
theorem claim_C8_loaded_one_shot (parsing : Bool) (env : RunEnv)
    (e : EntryM) (e2 : EntryM) (tr : List Ev)
    (he : e.type = EntryType.esm)
    (h : tryRunM parsing env e = (Except.ok (), e2, tr)) :
    e2.loadedProp = LoadedProp.observable ∧
    (∀ zs : List Nat, (∀ z ∈ zs, z = 0) →
      loadedWrites LoadedProp.observable zs =
        (LoadedProp.observable, []) ∧
      loadedRead (loadedWrites LoadedProp.observable zs).1 = 0) ∧
    (∀ zs v, (∀ z ∈ zs, z = 0) → v ≠ 0 →
      loadedWrites LoadedProp.observable (zs ++ [v]) =
        (LoadedProp.forwarded v, [Ev.bindingsUpdate, Ev.loadedHook])) ∧
    (∀ zs v ws, (∀ z ∈ zs, z = 0) → v ≠ 0 →
      (loadedWrites LoadedProp.observable (zs ++ v :: ws)).2 =
        [Ev.bindingsUpdate, Ev.loadedHook]) ∧
    (∀ w vs, (loadedWrites (LoadedProp.forwarded w) vs).2 = []) := by
  refine ⟨?_, ?_, ?_, ?_, ?_⟩
  · obtain ⟨-, -, -, -, -, -, -, -, -, hok, -⟩ :=
      tryRunM_esm_final parsing env e _ _ _ he h.symm
    exact (hok rfl).2.1
  · intro zs hz
    rw [loadedWrites_zeros zs hz]
    exact ⟨rfl, rfl⟩
  · intro zs v hz hv
    rw [loadedWrites_append, loadedWrites_zeros zs hz]
    simp [loadedWrites, loadedWrite, hv]
  · intro zs v ws hz hv
    rw [loadedWrites_append, loadedWrites_zeros zs hz]
    simp only [loadedWrites, loadedWrite, if_pos hv]
    simp [(loadedWrites_forwarded v ws).1, hv]
  · intro w vs
    exact (loadedWrites_forwarded w vs).1

/-- C8 witness: a successful concrete Declarative run installs the
observable. -/
theorem claim_C8_witness :
    (tryRunM true envOk eFresh).2.1.loadedProp = LoadedProp.observable :=
  (claim_C8_loaded_one_shot true envOk eFresh _ _ rfl rfl).1

/-- C9 as stated is refuted: `exportsRegExp` is anchored and its `.`
excludes line terminators, so a maskable ReferenceError whose message
mentions `exports` only after a newline does not mark the cache dirty,
although the claim's anywhere-in-the-message reading says it must. -/
theorem claim_C9_counterexample : ¬ cacheDirtyClaim := by
  intro hcl
  have h := (hcl true envRefNl eFresh
      (RunError.js ⟨"ReferenceError", "x\nexports", true⟩) _ _ rfl).mpr
    ⟨rfl, rfl, rfl, Or.inr ⟨rfl, by decide⟩⟩
  exact absurd h (by decide)

/-- C9 (amended): on every thrown execution error the package cache is
marked dirty iff the run is outside debug mode, the error is maskable,
the entry is Declarative, and the error is a SyntaxError or a
ReferenceError whose message contains the word `exports` before its
first line terminator (the anchored `exportsRegExp` of line 64);
otherwise the error is rethrown without marking, and the dirty flag is
otherwise preserved. -/
theorem claim_C9_cache_dirty_policy (parsing : Bool) (env : RunEnv)
    (e : EntryM) (err : RunError) (e2 : EntryM) (tr : List Ev)
    (h : tryRunM parsing env e = (Except.error err, e2, tr)) :
    (Ev.markDirty ∈ tr ↔
      (env.debug = false ∧ RunError.maskable err = true ∧
       e.type = EntryType.esm ∧
       (RunError.name err = "SyntaxError" ∨
        (RunError.name err = "ReferenceError" ∧
         containsWordExports (RunError.message err) = true)))) ∧
    (Ev.markDirty ∈ tr → e2.cacheDirty = true) ∧
    (Ev.markDirty ∉ tr → e2.cacheDirty = e.cacheDirty) := by
  cases he : e.type with
  | cjs =>
      obtain ⟨-, -, -, hcd, -, -, -, -, -, -, hmd, -, -, -⟩ :=
        tryRunM_cjs_spec parsing env e _ _ _ he h.symm
      refine ⟨?_, fun hin => absurd hin hmd, fun _ => hcd⟩
      simp [hmd, he]
  | esm =>
      obtain ⟨-, -, -, -, -, -, -, -, -, -, herr⟩ :=
        tryRunM_esm_final parsing env e _ _ _ he h.symm
      obtain ⟨-, hdiff, hdy, hdn⟩ := herr err rfl
      refine ⟨?_, hdy, hdn⟩
      rw [hdiff, dirty_iff]
      simp [he]

/-- C9 witness: a maskable SyntaxError thrown by a concrete Declarative
entry marks the package cache dirty. -/
theorem claim_C9_witness :
    Ev.markDirty ∈ (tryRunM true envSyn eFresh).2.2 :=
  (claim_C9_cache_dirty_policy true envSyn eFresh
      (RunError.js ⟨"SyntaxError", "unexpected token", true⟩) _ _ rfl).1.mpr
    ⟨rfl, rfl, rfl, Or.inl rfl⟩

/-- C5 counterexample: executing an already-parsed Dynamic entry moves
PARSING_COMPLETED to EXECUTION_STARTED on a non-throwing path — a
transition outside the claimed machine. -/
theorem claim_C5_counterexample : ¬ stateMachineClaim := by
  intro hcl
  have hchain2 : chainOK (claimedStep (tryRunM false envOk eParsedCjs).1)
      EntryState.parsingCompleted
      [EntryState.executionStarted, EntryState.executionCompleted] :=
    (hcl false envOk eParsedCjs).1
  rcases hchain2.1 with hm | ⟨herr, -⟩
  · exact absurd hm (by decide)
  · rw [show exceptIsError (tryRunM false envOk eParsedCjs).1 = false
      from rfl] at herr
    exact Bool.noConfusion herr

theorem chainOK_cons (R : EntryState → EntryState → Prop)
    (a b : EntryState) (rest : List EntryState) :
    chainOK R a (b :: rest) ↔ R a b ∧ chainOK R b rest := Iff.rfl

theorem chainOK_nil (R : EntryState → EntryState → Prop) (a : EntryState) :
    chainOK R a [] := trivial

theorem compileCaching_error_state (p : Bool) (c : String)
    (cres : Except JsError CompileData) (st : CacheSt) (er : JsError)
    (h : (compileCaching p c cres st).2.1 = Except.error er) :
    (compileCaching p c cres st).1.entryState =
      EntryState.executionCompleted := by
  unfold compileCaching freshCompile at *
  cases he : st.entryCompileData
  · rcases hpc : st.pkgCache with _ | cached
    · cases cres <;> simp_all
    · by_cases ht : cached.transforms = 0 <;> cases cres <;> simp_all
  · simp_all

/-- C5 (amended): within one `tryRun` invocation the state moves from
any prior value to the current phase's STARTED state (line 291 assigns
unconditionally), then along the machine to the matching COMPLETED state
on success; every thrown path — in `tryRun` and in `tryCompile` — ends
at STATE_EXECUTION_COMPLETED. -/
theorem claim_C5_state_machine (parsing : Bool) (env : RunEnv)
    (e : EntryM) (p2 : Bool) (c2 : String)
    (cres : Except JsError CompileData) (st : CacheSt) :
    (chainOK (amendedStep parsing (exceptIsError (tryRunM parsing env e).1))
       e.state (stateSets (tryRunM parsing env e).2.2) ∧
     (exceptIsError (tryRunM parsing env e).1 = true →
       (tryRunM parsing env e).2.1.state = EntryState.executionCompleted)) ∧
    (∀ er, (compileCaching p2 c2 cres st).2.1 = Except.error er →
      (compileCaching p2 c2 cres st).1.entryState =
        EntryState.executionCompleted) := by
  refine ⟨?_, fun er her => compileCaching_error_state p2 c2 cres st er her⟩
  rcases hEq : tryRunM parsing env e with ⟨r, e2, tr⟩
  have hss : stateSets tr =
      [if parsing then EntryState.parsingStarted
       else EntryState.executionStarted, e2.state] ∧
      (exceptIsError r = true →
        e2.state = EntryState.executionCompleted) ∧
      (r = Except.ok () → e2.state =
        (if parsing then EntryState.parsingCompleted
         else EntryState.executionCompleted)) := by
    cases he : e.type with
    | cjs =>
        obtain ⟨-, -, -, -, -, h6, h7, h8, -⟩ :=
          tryRunM_cjs_spec parsing env e r e2 tr he hEq.symm
        exact ⟨h6, h7, h8⟩
    | esm =>
        obtain ⟨-, -, -, -, h5, -, -, -, -, hok, herr⟩ :=
          tryRunM_esm_final parsing env e r e2 tr he hEq.symm
        refine ⟨h5, ?_, fun hr => (hok hr).1⟩
        intro hisErr
        cases r with
        | ok u => exact absurd hisErr (by simp [exceptIsError])
        | error er2 => exact (herr er2 rfl).1
  obtain ⟨h6, h7, h8⟩ := hss
  dsimp only
  rw [h6]
  refine ⟨(chainOK_cons _ _ _ _).mpr
    ⟨Or.inl rfl, (chainOK_cons _ _ _ _).mpr ⟨?_, chainOK_nil _ _⟩⟩, h7⟩
  cases r with
  | ok u =>
      cases u
      rw [h8 rfl]
      refine Or.inr (Or.inl ?_)
      cases parsing <;> simp [machineStep]
  | error er2 =>
      rw [h7 (by simp [exceptIsError])]
      exact Or.inr (Or.inr ⟨by simp [exceptIsError], rfl⟩)

/-- C5 witness: the amended statement at a concrete run. -/
theorem claim_C5_witness :
    (chainOK (amendedStep true (exceptIsError (tryRunM true envOk eFresh).1))
       eFresh.state (stateSets (tryRunM true envOk eFresh).2.2) ∧
     (exceptIsError (tryRunM true envOk eFresh).1 = true →
       (tryRunM true envOk eFresh).2.1.state =
         EntryState.executionCompleted)) ∧
    (∀ er, (compileCaching true "s" (Except.ok cdFresh) stInit).2.1 =
        Except.error er →
      (compileCaching true "s" (Except.ok cdFresh) stInit).1.entryState =
        EntryState.executionCompleted) :=
  claim_C5_state_machine true envOk eFresh true "s" (Except.ok cdFresh) stInit

/-! ## Claim on the DFS -/

theorem isDescendantFuel_sufficient (g : Graph) (entry : Nat)
    (hclosed : g.Closed) :
    ∀ fuel : Nat,
      (∀ (p : Nat) (seen : Finset Nat), p ∈ g.nodes → seen ⊆ g.nodes →
        (g.nodes \ seen).card < fuel →
        ∃ b seen2, isDescendantFuel g entry fuel p seen = some (b, seen2) ∧
          seen ⊆ seen2 ∧ seen2 ⊆ g.nodes) ∧
      (∀ (cs : List Nat) (seen : Finset Nat), (∀ c ∈ cs, c ∈ g.nodes) →
        seen ⊆ g.nodes → (g.nodes \ seen).card < fuel →
        ∃ b seen2, childrenScan g entry fuel cs seen = some (b, seen2) ∧
          seen ⊆ seen2 ∧ seen2 ⊆ g.nodes) := by
  intro fuel
  induction fuel with
  | zero =>
      constructor
      · intro p seen _ _ hc
        exact absurd hc (Nat.not_lt_zero _)
      · intro cs seen _ _ hc
        exact absurd hc (Nat.not_lt_zero _)
  | succ f ih =>
      have hP : ∀ (p : Nat) (seen : Finset Nat), p ∈ g.nodes →
          seen ⊆ g.nodes → (g.nodes \ seen).card < f + 1 →
          ∃ b seen2,
            isDescendantFuel g entry (f + 1) p seen = some (b, seen2) ∧
            seen ⊆ seen2 ∧ seen2 ⊆ g.nodes := by
        intro p seen hp hs hc
        rw [isDescendantFuel]
        by_cases hmem : p ∈ seen
        · rw [if_pos hmem]
          exact ⟨false, seen, rfl, Finset.Subset.refl _, hs⟩
        · rw [if_neg hmem]
          have h1 : p ∈ g.nodes \ seen := Finset.mem_sdiff.mpr ⟨hp, hmem⟩
          have hcard : (g.nodes \ insert p seen).card < f := by
            rw [Finset.sdiff_insert, Finset.card_erase_of_mem h1]
            have h3 : 0 < (g.nodes \ seen).card :=
              Finset.card_pos.mpr ⟨p, h1⟩
            omega
          obtain ⟨b, s2, heq, hsub, hsub2⟩ := ih.2 (g.children p)
            (insert p seen) (fun c hc2 => hclosed p hp c hc2)
            (Finset.insert_subset_iff.mpr ⟨hp, hs⟩) hcard
          exact ⟨b, s2, heq,
            (Finset.subset_insert p seen).trans hsub, hsub2⟩
      refine ⟨hP, ?_⟩
      intro cs
      induction cs with
      | nil =>
          intro seen _ hs _
          rw [childrenScan]
          exact ⟨false, seen, rfl, Finset.Subset.refl _, hs⟩
      | cons c ct ihc =>
          intro seen hcs hs hc
          rw [childrenScan]
          by_cases hec : entry = c
          · rw [if_pos hec]
            exact ⟨true, seen, rfl, Finset.Subset.refl _, hs⟩
          · rw [if_neg hec]
            obtain ⟨b, s2, heq, hsub, hsub2⟩ := hP c seen
              (hcs c (by simp)) hs hc
            rw [heq]
            cases b with
            | true => exact ⟨true, s2, rfl, hsub, hsub2⟩
            | false =>
                have hc2 : (g.nodes \ s2).card < f + 1 := by
                  have hsd : g.nodes \ s2 ⊆ g.nodes \ seen :=
                    Finset.sdiff_subset_sdiff (Finset.Subset.refl _) hsub
                  exact Nat.lt_of_le_of_lt (Finset.card_le_card hsd) hc
                obtain ⟨b2, s3, heq2, hsub3, hsub4⟩ := ihc s2
                  (fun x hx => hcs x (by simp [hx])) hsub2 hc2
                exact ⟨b2, s3, heq2, hsub.trans hsub3, hsub4⟩

/-- C10: on every import graph whose children are registered entries,
`isDescendant` terminates within a recursion budget of one more than the
number of distinct entries — each visited entry is inserted into `seen`
before its children are traversed — and an entry already in `seen` is
never revisited (the scan returns immediately). -/
theorem claim_C10_dfs_terminates (g : Graph) (entry parentEntry : Nat)
    (hclosed : g.Closed) (hp : parentEntry ∈ g.nodes) :
    (∃ b seen2,
        isDescendantFuel g entry (g.nodes.card + 1) parentEntry ∅ =
          some (b, seen2) ∧
        isDescendant g entry parentEntry = b) ∧
    (∀ (fuel : Nat) (seen : Finset Nat), parentEntry ∈ seen →
      isDescendantFuel g entry (fuel + 1) parentEntry seen =
        some (false, seen)) := by
  constructor
  · obtain ⟨b, s2, heq, -, -⟩ :=
      (isDescendantFuel_sufficient g entry hclosed (g.nodes.card + 1)).1
        parentEntry ∅ hp (Finset.empty_subset _)
        (by rw [Finset.sdiff_empty]; omega)
    refine ⟨b, s2, heq, ?_⟩
    unfold isDescendant
    rw [heq]
  · intro fuel seen hmem
    rw [isDescendantFuel]
    rw [if_pos hmem]

/-- C10 witness: the two-node cycle terminates with the whole-graph
budget and detects the self-cycle. -/
theorem claim_C10_witness :
    (∃ b seen2,
        isDescendantFuel gCyc 0 (gCyc.nodes.card + 1) 0 ∅ =
          some (b, seen2) ∧
        isDescendant gCyc 0 0 = b) ∧
    (∀ (fuel : Nat) (seen : Finset Nat), 0 ∈ seen →
      isDescendantFuel gCyc 0 (fuel + 1) 0 seen = some (false, seen)) :=
  claim_C10_dfs_terminates gCyc 0 0 (by unfold Graph.Closed; decide)
    (by decide)

/-! ## Claims on the compile run phase -/

theorem esmAfterFirstRun_flag (g : Graph) (i : Nat) (env2 env3 : RunEnv)
    (s pa : Bool) (e1 : EntryM) (tr : List Ev) :
    (esmAfterFirstRun g i env2 env3 s pa e1 tr).2.1 =
      if s then false else pa := by
  unfold esmAfterFirstRun
  dsimp only
  cases s <;>
  by_cases h1 : e1.compileData.circular = -1 <;>
  cases hb : isDescendant g i i <;>
  simp only [h1, hb, if_true, if_false, ite_true, ite_false] <;>
  first
    | rfl
    | (split <;> first
        | rfl
        | (split <;> first
            | rfl
            | (split <;> rfl)))

theorem firstPassOf_noRuntime (e : EntryM) (h : e.runtimePresent = false) :
    firstPassOf e = true := by
  unfold firstPassOf runtimeSetup
  rw [h]
  simp

theorem run2_facts (env : RunEnv) (e3 : EntryM) (rB : Except RunError Unit)
    (e4 : EntryM) (trB : List Ev) (he3 : e3.type = EntryType.esm)
    (hrt : e3.runtimePresent = false)
    (h : tryRunM true env e3 = (rB, e4, trB)) :
    e4.compileData = e3.compileData ∧
    trB.count Ev.bodyExec = 1 ∧
    trB.count Ev.circCheck = 0 ∧
    Ev.exportsReplaced ∉ trB := by
  obtain ⟨_, hcd, _, _, _, hcount, _, hcc, hex, _, _⟩ :=
    tryRunM_esm_final true env e3 rB e4 trB he3 h.symm
  refine ⟨hcd, ?_, List.count_eq_zero.mpr hcc, hex⟩
  rw [hcount, firstPassOf_noRuntime e3 hrt]
  simp

set_option maxHeartbeats 1000000 in
theorem esmAfterFirstRun_facts (g : Graph) (i : Nat) (env2 env3 : RunEnv)
    (pa : Bool) (e1 : EntryM) (tr : List Ev)
    (he : e1.type = EntryType.esm) :
    ((esmAfterFirstRun g i env2 env3 false pa e1 tr).2.2.2.count Ev.bodyExec ≤
        tr.count Ev.bodyExec + 1) ∧
    (e1.compileData.circular ≠ -1 →
      (Ev.circCheck ∈ (esmAfterFirstRun g i env2 env3 false pa e1 tr).2.2.2 ↔
        Ev.circCheck ∈ tr)) ∧
    (e1.compileData.circular = -1 →
      (esmAfterFirstRun g i env2 env3 false pa e1 tr).2.2.2.count
          Ev.circCheck = tr.count Ev.circCheck + 1 ∧
      (esmAfterFirstRun g i env2 env3 false pa e1 tr).2.2.1.compileData.circular =
          (if isDescendant g i i then 1 else 0) ∧
      (isDescendant g i i = true →
        (esmAfterFirstRun g i env2 env3 false pa e1 tr).2.2.2.count
            Ev.bodyExec = tr.count Ev.bodyExec + 1 ∧
        Ev.exportsReplaced ∈
          (esmAfterFirstRun g i env2 env3 false pa e1 tr).2.2.2 ∧
        (∀ c, e1.compileData.codeWithTDZ = some c →
          (esmAfterFirstRun g i env2 env3 false pa e1 tr).2.2.1.compileData.code =
            some c)) ∧
      (isDescendant g i i = false →
        (esmAfterFirstRun g i env2 env3 false pa e1 tr).2.2.2.count
            Ev.bodyExec = tr.count Ev.bodyExec ∧
        (Ev.exportsReplaced ∈
            (esmAfterFirstRun g i env2 env3 false pa e1 tr).2.2.2 ↔
          Ev.exportsReplaced ∈ tr))) := by
  refine ⟨?_, ?_, ?_⟩
  · -- bodyExec bound
    unfold esmAfterFirstRun
    dsimp only
    by_cases h1 : e1.compileData.circular = -1
    · cases hb : isDescendant g i i
      · simp [h1, hb]
        split <;> simp [List.count_append]
      · simp [h1, hb]
        split <;> rename_i x e4 trB heq
        · obtain ⟨-, hcnt4, -, -⟩ := run2_facts env2 _ _ e4 trB (by exact he) (by rfl) heq
          simp [List.count_append, hcnt4]
        · obtain ⟨-, hcnt4, -, -⟩ := run2_facts env2 _ _ e4 trB (by exact he) (by rfl) heq
          split <;> simp [List.count_append, hcnt4]
    · by_cases h2 : e1.compileData.circular = 1
      · simp [h1, h2]
        split <;> rename_i x e4 trB heq
        · obtain ⟨-, hcnt4, -, -⟩ := run2_facts env2 _ _ e4 trB (by exact he) (by rfl) heq
          simp [List.count_append, hcnt4]
        · obtain ⟨-, hcnt4, -, -⟩ := run2_facts env2 _ _ e4 trB (by exact he) (by rfl) heq
          split <;> simp [List.count_append, hcnt4]
      · simp [h1, h2]
        split <;> simp [List.count_append]
  · -- circCheck untouched when the tri-state is already known
    intro h1
    unfold esmAfterFirstRun
    dsimp only
    by_cases h2 : e1.compileData.circular = 1
    · simp [h1, h2]
      split <;> rename_i x e4 trB heq
      · obtain ⟨-, -, hcc4, -⟩ := run2_facts env2 _ _ e4 trB (by exact he) (by rfl) heq
        simp [List.count_eq_zero.mp hcc4]
      · obtain ⟨-, -, hcc4, -⟩ := run2_facts env2 _ _ e4 trB (by exact he) (by rfl) heq
        split <;> simp [List.count_eq_zero.mp hcc4]
    · simp [h1, h2]
      split <;> simp
  · -- the DFS branch
    intro h1
    unfold esmAfterFirstRun
    dsimp only
    cases hb : isDescendant g i i
    · by_cases hnd : e1.namespaceDeferred = true <;>
        simp [h1, hb, hnd, List.count_append]
    · simp [h1, hb]
      split <;> rename_i x e4 trB heq <;>
        obtain ⟨hcd4, hcnt4, hcc4, hex4⟩ :=
          run2_facts env2 _ _ e4 trB (by exact he) (by rfl) heq <;>
        cases hnd : e4.namespaceDeferred <;>
        cases hcz : e1.compileData.codeWithTDZ <;>
          simp [List.count_append, hcnt4, hcc4, hcd4, hcz, hnd,
            List.count_eq_zero.mp hcc4, hex4]

set_option maxHeartbeats 1000000 in
/-- C2: for a Declarative entry processed under an active parse whose
circular tri-state is unknown, once the first driver run succeeds the
circularity is computed exactly once by the DFS and memoized into
`compileData.circular`; a confirmed self-cycle replaces the exports,
swaps in `codeWithTDZ` (when non-null) and re-runs, so the body executes
exactly twice for true self-cycles and once otherwise; when the
tri-state is already known no DFS runs; in all cases the body executes
at most twice. -/
theorem claim_C2_circularity (g : Graph) (entryId : Nat)
    (parent : Option ParentInfo) (frames : List Frame)
    (fb dflt : Bool) (env1 env2 env3 : RunEnv) (e : EntryM)
    (res : Except RunError Unit × Bool × EntryM × List Ev)
    (he : e.type = EntryType.esm)
    (hres : res = compileRunPhase g entryId parent frames fb dflt env1
        env2 env3 true e) :
    res.2.2.2.count Ev.bodyExec ≤ 2 ∧
    (e.compileData.circular ≠ -1 → Ev.circCheck ∉ res.2.2.2) ∧
    (e.compileData.circular = -1 → firstPassOf e = true →
      (tryRunM true env1 e).1 = Except.ok () →
      res.2.2.2.count Ev.circCheck = 1 ∧
      res.2.2.1.compileData.circular =
        (if isDescendant g entryId entryId then 1 else 0) ∧
      (isDescendant g entryId entryId = true →
        res.2.2.2.count Ev.bodyExec = 2 ∧
        Ev.exportsReplaced ∈ res.2.2.2 ∧
        (∀ c, e.compileData.codeWithTDZ = some c →
          res.2.2.1.compileData.code = some c)) ∧
      (isDescendant g entryId entryId = false →
        res.2.2.2.count Ev.bodyExec = 1 ∧
        Ev.exportsReplaced ∉ res.2.2.2)) := by
  subst hres
  have hesm : (e.type == EntryType.esm) = true := by rw [he]; rfl
  rcases hA : tryRunM true env1 e with ⟨r1, e2, trA⟩
  obtain ⟨ht2, hcd2, -, -, -, hcnt2, -, hcc2, hex2, -, -⟩ :=
    tryRunM_esm_final true env1 e r1 e2 trA he hA.symm
  have htrA : trA.count Ev.bodyExec ≤ 1 := by
    rw [hcnt2]
    split <;> omega
  unfold compileRunPhase
  dsimp only
  rw [hA]
  cases r1 with
  | error er =>
      simp only [hesm, Bool.not_true, Bool.false_eq_true, if_false, if_true]
      refine ⟨by simpa using le_trans htrA (by omega), fun _ => hcc2, ?_⟩
      intro _ _ hok
      simp at hok
  | ok u =>
      simp only [hesm, Bool.not_true, Bool.false_eq_true, if_false, if_true]
      obtain ⟨hb1, hb2, hb3⟩ :=
        esmAfterFirstRun_facts g entryId env2 env3 true e2 trA (ht2.trans he)
      refine ⟨le_trans hb1 (by omega), ?_, ?_⟩
      · intro h1 hmem
        exact hcc2 ((hb2 (by rw [hcd2]; exact h1)).mp hmem)
      · intro h1 hfp _
        obtain ⟨hc1, hc2, hc3, hc4⟩ := hb3 (by rw [hcd2]; exact h1)
        refine ⟨?_, hc2, ?_, ?_⟩
        · rw [hc1, List.count_eq_zero.mpr hcc2]
        · intro hbT
          obtain ⟨hd1, hd2, hd3⟩ := hc3 hbT
          refine ⟨?_, hd2, ?_⟩
          · rw [hd1, hcnt2]
            simp [hfp]
          · intro c hcz
            exact hd3 c (by rw [hcd2]; exact hcz)
        · intro hbF
          obtain ⟨hd1, hd2⟩ := hc4 hbF
          refine ⟨?_, fun hmem => hex2 (hd2.mp hmem)⟩
          rw [hd1, hcnt2]
          simp [hfp]

/-- C6: the process-wide parsing flag is unchanged across every exit
path of the run phase — in particular a call that acquired it as the
outermost sideload bootstrap (flag unset, Declarative entry in the
initial state) has released it whether the phase returned or threw —
and a call that finds the flag unset without the bootstrap conditions
never raises it: it delegates directly to the execution driver with the
flag still unset. -/
theorem claim_C6_parsing_flag (g : Graph) (entryId : Nat)
    (parent : Option ParentInfo) (frames : List Frame)
    (fb dflt : Bool) (env1 env2 env3 : RunEnv) (parsing0 : Bool)
    (e : EntryM) :
    (compileRunPhase g entryId parent frames fb dflt env1 env2 env3
        parsing0 e).2.1 = parsing0 ∧
    (parsing0 = false →
      ¬(e.type = EntryType.esm ∧ e.state = EntryState.initial) →
      compileRunPhase g entryId parent frames fb dflt env1 env2 env3
          parsing0 e =
        ((tryRunM false env1 e).1, false, (tryRunM false env1 e).2.1,
         (tryRunM false env1 e).2.2)) := by
  constructor
  · unfold compileRunPhase
    dsimp only
    cases hp : parsing0
    · simp only [Bool.not_false, if_true]
      split
      · split <;> rename_i e2 trA heq
        · rfl
        · simp [esmAfterFirstRun_flag]
      · rfl
    · simp only [Bool.not_true, Bool.false_eq_true, if_false]
      split
      · split <;> rename_i e2 trA heq
        · rfl
        · simp [esmAfterFirstRun_flag]
      · split
        · rfl
        · rfl
  · intro hp hni
    have hcond :
        ((e.type == EntryType.esm) && (e.state == EntryState.initial)) =
          false := by
      by_cases h1 : e.type = EntryType.esm
      · by_cases h2 : e.state = EntryState.initial
        · exact absurd ⟨h1, h2⟩ hni
        · simp [h2]
      · simp [h1]
    subst hp
    unfold compileRunPhase
    dsimp only
    rw [hcond]
    rcases hA : tryRunM false env1 e with ⟨r, e1, trA⟩
    simp

/-- C3 as stated is refuted: with the parsing flag unset, a Dynamic
entry with a fallback and an external frame outside the engine's own
source is run directly (the driver is entered via the early return of
line 150) and the fallback is never consulted. -/
theorem claim_C3_counterexample : ¬fallbackClaim := by
  intro hcl
  have h := (hcl gCyc 0 none [⟨true, false⟩] true envOk envOk envOk false
    eParsedCjs rfl).mpr ⟨rfl, Or.inl rfl, rfl⟩
  exact absurd h (by decide)

set_option maxHeartbeats 1000000 in
/-- C3 (amended): for a Dynamic entry with a function-valued fallback,
`fallback()` is consulted iff the process-wide parsing flag is already
held AND neither the entry nor its parent is Declarative, one of their
packages is the default package, and some stack frame has an absolute
path outside the engine's own source. -/
theorem claim_C3_fallback (g : Graph) (entryId : Nat)
    (parent : Option ParentInfo) (frames : List Frame)
    (isDefaultPkg : Bool) (env1 env2 env3 : RunEnv) (parsing0 : Bool)
    (e : EntryM) (he : e.type = EntryType.cjs) :
    Ev.fallbackCalled ∈
        (compileRunPhase g entryId parent frames true isDefaultPkg
          env1 env2 env3 parsing0 e).2.2.2 ↔
      (parsing0 = true ∧ parentIsESM parent = false ∧
       (isDefaultPkg = true ∨ parentPkgDefault parent = true) ∧
       anyExternalFrame frames = true) := by
  have hesm : (e.type == EntryType.esm) = false := by rw [he]; rfl
  unfold compileRunPhase
  dsimp only
  cases hp : parsing0
  · rcases hA : tryRunM false env1 e with ⟨r, e1, trA⟩
    obtain ⟨-, -, -, -, -, -, -, -, -, -, -, hfb, -, -⟩ :=
      tryRunM_cjs_spec false env1 e r e1 trA he hA.symm
    simp [hesm, hfb]
  · simp only [hesm, Bool.not_true, Bool.false_eq_true, if_false, if_true]
    split <;> rename_i hcond
    · simp at hcond
      simp [hcond]
    · rcases hA : tryRunM true env1 e with ⟨r, e1, trA⟩
      obtain ⟨-, -, -, -, -, -, -, -, -, -, -, hfb, -, -⟩ :=
        tryRunM_cjs_spec true env1 e r e1 trA he hA.symm
      simp at hcond
      simp [hfb]
      tauto

/-- C2 witness: on the two-node cycle, a fresh Declarative entry parsed
with all external calls succeeding executes its body exactly twice; the
self-cycle is memoized, the exports are replaced and the TDZ code
swapped in. -/
theorem claim_C2_witness :
    (compileRunPhase gCyc 0 none [] false false envOk envOk envOk true
        eFresh).2.2.2.count Ev.bodyExec = 2 ∧
    (compileRunPhase gCyc 0 none [] false false envOk envOk envOk true
        eFresh).2.2.1.compileData.circular = 1 ∧
    Ev.exportsReplaced ∈
      (compileRunPhase gCyc 0 none [] false false envOk envOk envOk true
        eFresh).2.2.2 ∧
    (compileRunPhase gCyc 0 none [] false false envOk envOk envOk true
        eFresh).2.2.1.compileData.code = some "tdz" := by
  have hdesc : isDescendant gCyc 0 0 = true := by
    simp [isDescendant, isDescendantFuel, childrenScan, gCyc]
  obtain ⟨-, -, h3⟩ := claim_C2_circularity gCyc 0 none [] false false
    envOk envOk envOk eFresh _ rfl rfl
  obtain ⟨-, hc2, hc3, -⟩ := h3 rfl rfl rfl
  obtain ⟨hd1, hd2, hd3⟩ := hc3 hdesc
  refine ⟨hd1, ?_, hd2, hd3 "tdz" rfl⟩
  rw [hc2]
  simp [hdesc]

/-- C3 witness: with the parsing flag held, a parent-less Dynamic entry
under the default package with an external absolute frame delegates to
the fallback. -/
theorem claim_C3_witness :
    Ev.fallbackCalled ∈
        (compileRunPhase gCyc 0 none [⟨true, false⟩] true true envOk envOk
          envOk true eParsedCjs).2.2.2 ↔
      (true = true ∧ parentIsESM none = false ∧
       (true = true ∨ parentPkgDefault none = true) ∧
       anyExternalFrame [⟨true, false⟩] = true) :=
  claim_C3_fallback gCyc 0 none [⟨true, false⟩] true envOk envOk envOk true
    eParsedCjs rfl

/-- C6 witness: a Dynamic entry processed with the flag unset leaves the
flag unset and is delegated directly to the execution driver. -/
theorem claim_C6_witness :
    (compileRunPhase gCyc 0 none [] false false envOk envOk envOk false
        eParsedCjs).2.1 = false ∧
    compileRunPhase gCyc 0 none [] false false envOk envOk envOk false
        eParsedCjs =
      ((tryRunM false envOk eParsedCjs).1, false,
       (tryRunM false envOk eParsedCjs).2.1,
       (tryRunM false envOk eParsedCjs).2.2) :=
  ⟨(claim_C6_parsing_flag gCyc 0 none [] false false envOk envOk envOk
      false eParsedCjs).1,
   (claim_C6_parsing_flag gCyc 0 none [] false false envOk envOk envOk
      false eParsedCjs).2 rfl (by decide)⟩

end Esm
